import Mathlib

/-!
Verification of the speech-synthesis delivery pipeline of the
`ai-coach-7society` repository (files `audio_manager.py`, `user_state.py`,
`config.py`) against its natural-language specification.

The Python classes are shallowly embedded as Lean structures; Python dicts
become association lists, `datetime` values become integer seconds, and
filesystem existence checks become an explicit `String → Bool` parameter.
Operations that Python performs by in-place mutation are modelled by
explicit state passing.
-/

/-! ## Association lists

Python `dict`s (the cache map, the per-user session map, the last-audio
record map) are modelled by association lists with unique keys, preserving
insertion order: `assocInsert` overwrites in place when the key is present
and appends otherwise, matching `d[k] = v`; `assocErase` removes the key's
binding, matching `del d[k]`. -/

def assocFind {κ α : Type} [DecidableEq κ] : List (κ × α) → κ → Option α
  | [], _ => none
  | kv :: rest, k => if kv.1 = k then some kv.2 else assocFind rest k

def assocInsert {κ α : Type} [DecidableEq κ] : List (κ × α) → κ → α → List (κ × α)
  | [], k, v => [(k, v)]
  | kv :: rest, k, v => if kv.1 = k then (k, v) :: rest else kv :: assocInsert rest k v

def assocErase {κ α : Type} [DecidableEq κ] : List (κ × α) → κ → List (κ × α)
  | [], _ => []
  | kv :: rest, k => if kv.1 = k then rest else kv :: assocErase rest k

theorem assocFind_assocInsert_self {κ α : Type} [DecidableEq κ]
    (l : List (κ × α)) (k : κ) (v : α) :
    assocFind (assocInsert l k v) k = some v := by
  induction l with
  | nil => simp [assocInsert, assocFind]
  | cons kv rest ih =>
    by_cases h : kv.1 = k
    · simp [assocInsert, assocFind, h]
    · simp [assocInsert, assocFind, h, ih]

theorem assocInsert_length_le {κ α : Type} [DecidableEq κ]
    (l : List (κ × α)) (k : κ) (v : α) :
    (assocInsert l k v).length ≤ l.length + 1 := by
  induction l with
  | nil => simp [assocInsert]
  | cons kv rest ih =>
    by_cases h : kv.1 = k
    · simp [assocInsert, h]
    · simpa [assocInsert, h] using Nat.succ_le_succ ih

/-! ## `AudioCache` (audio_manager.py, lines 21–79)

`self.cache: Dict[str, Dict[str, Any]]` maps an md5 fingerprint of
`f"{text}_{language}"` to `{'file_path': …, 'timestamp': …}`.  The md5
digest is modelled by the (injective) digested string itself: the claims
under verification depend only on the fingerprint being a deterministic
function of `(text, language)`, never on hash collisions.  Timestamps and
the TTL are integer seconds; `datetime.now()` is an explicit `now`
argument; `os.path.exists` is an explicit `file_exists` argument. -/

structure CacheEntry where
  file_path : String
  timestamp : Int
deriving Repr, DecidableEq

structure AudioCache where
  cache : List (String × CacheEntry)
  max_size : Nat
  ttl : Int
deriving Repr, DecidableEq

/-- `AudioCache.__init__(max_size=100, ttl_hours=1)`; the TTL is kept in
seconds (`timedelta(hours=ttl_hours)`). -/
def AudioCache.init (max_size : Nat := 100) (ttl_hours : Int := 1) : AudioCache :=
  { cache := [], max_size := max_size, ttl := ttl_hours * 3600 }

/-- `AudioCache._generate_key`: md5 over `f"{text}_{language}"`, modelled by
the digested string itself (see the section comment). -/
def AudioCache._generate_key (text language : String) : String :=
  text ++ "_" ++ language

/-- `AudioCache.get`: returns the cached path only if the key is present,
`datetime.now() - entry['timestamp'] < self.ttl`, and the backing file
exists; when the file is gone the entry is deleted from the map; a
TTL-expired entry is left in the map.  Returns the result together with
the (possibly changed) cache state. -/
def AudioCache.get (c : AudioCache) (file_exists : String → Bool) (now : Int)
    (text language : String) : Option String × AudioCache :=
  let key := AudioCache._generate_key text language
  match assocFind c.cache key with
  | some entry =>
    if now - entry.timestamp < c.ttl then
      if file_exists entry.file_path then
        (some entry.file_path, c)
      else
        (none, { c with cache := assocErase c.cache key })
    else
      (none, c)
  | none => (none, c)

/-- `AudioCache._cleanup_old_entries`: drops every entry with
`now - entry['timestamp'] > self.ttl` from the map.  The `os.unlink` of
each expired entry's physical file is an effect on the filesystem, not on
the cache map; no claim under verification observes it. -/
def AudioCache._cleanup_old_entries (c : AudioCache) (now : Int) : AudioCache :=
  { c with cache := c.cache.filter (fun kv => !decide (now - kv.2.timestamp > c.ttl)) }

/-- `AudioCache.set`: when `len(self.cache) >= self.max_size` it first runs
`_cleanup_old_entries`, then unconditionally inserts/overwrites the entry. -/
def AudioCache.set (c : AudioCache) (now : Int) (text language file_path : String) :
    AudioCache :=
  let key := AudioCache._generate_key text language
  let c1 := if c.cache.length ≥ c.max_size then c._cleanup_old_entries now else c
  { c1 with cache := assocInsert c1.cache key { file_path := file_path, timestamp := now } }

/-- Unfolding equation for `AudioCache.get`. -/
theorem AudioCache.get_eq (c : AudioCache) (file_exists : String → Bool) (now : Int)
    (text language : String) :
    c.get file_exists now text language =
      match assocFind c.cache (AudioCache._generate_key text language) with
      | some entry =>
        if now - entry.timestamp < c.ttl then
          if file_exists entry.file_path then
            (some entry.file_path, c)
          else
            (none, { c with cache := assocErase c.cache (AudioCache._generate_key text language) })
        else
          (none, c)
      | none => (none, c) := rfl

/-- C1 counterexample: a TTL-expired entry (created at 0, queried at 7200
with a 3600-second TTL, backing file still present) makes `get` return a
miss, but the stale entry is NOT removed from the cache map — the claim
says the lookup removes it. -/
theorem c1_expired_entry_not_removed_on_lookup :
    ((AudioCache.mk [("t_l", ⟨"p", 0⟩)] 100 3600).get (fun _ => true) 7200 "t" "l").1 = none ∧
    ((AudioCache.mk [("t_l", ⟨"p", 0⟩)] 100 3600).get (fun _ => true) 7200 "t" "l").2.cache
      = [("t_l", ⟨"p", 0⟩)] := by
  decide

/-- C1 (amended): for every (text, language) pair, `AudioCache.get` returns
the stored artifact only if an entry for its fingerprint is present, not
TTL-expired, and the backing file still exists; otherwise it returns miss,
removing the stale entry from the cache map only in the file-missing case —
a TTL-expired entry stays in the map (and the cache is unchanged). -/
theorem c1_lookup_spec (c : AudioCache) (fe : String → Bool) (now : Int)
    (text language : String) :
    (∀ p, (c.get fe now text language).1 = some p →
        ∃ e, assocFind c.cache (AudioCache._generate_key text language) = some e ∧
          e.file_path = p ∧ now - e.timestamp < c.ttl ∧ fe p = true) ∧
    (∀ e, assocFind c.cache (AudioCache._generate_key text language) = some e →
        now - e.timestamp < c.ttl → fe e.file_path = false →
        (c.get fe now text language).1 = none ∧
        (c.get fe now text language).2.cache
          = assocErase c.cache (AudioCache._generate_key text language)) ∧
    (∀ e, assocFind c.cache (AudioCache._generate_key text language) = some e →
        ¬ now - e.timestamp < c.ttl →
        c.get fe now text language = (none, c)) ∧
    (assocFind c.cache (AudioCache._generate_key text language) = none →
        c.get fe now text language = (none, c)) := by
  refine ⟨?_, ?_, ?_, ?_⟩
  · intro p hp
    rw [AudioCache.get_eq] at hp
    cases h : assocFind c.cache (AudioCache._generate_key text language) with
    | none => rw [h] at hp; simp at hp
    | some e =>
      rw [h] at hp
      by_cases hfresh : now - e.timestamp < c.ttl
      · by_cases hfe : fe e.file_path
        · have hfp : e.file_path = p := by simpa [hfresh, hfe] using hp
          exact ⟨e, rfl, hfp, hfresh, hfp ▸ hfe⟩
        · simp [hfresh, hfe] at hp
      · simp [hfresh] at hp
  · intro e he hfresh hfe
    constructor <;> simp [AudioCache.get_eq, he, hfresh, hfe]
  · intro e he hstale
    simp [AudioCache.get_eq, he, hstale]
  · intro h
    simp [AudioCache.get_eq, h]

/-- Witness for `c1_lookup_spec`: a fresh entry whose backing file is gone
is reported as a miss and erased from the map. -/
theorem c1_lookup_spec_witness :
    ((AudioCache.mk [("t_l", ⟨"p", 0⟩)] 100 3600).get (fun _ => false) 10 "t" "l").1 = none ∧
    ((AudioCache.mk [("t_l", ⟨"p", 0⟩)] 100 3600).get (fun _ => false) 10 "t" "l").2.cache
      = assocErase [("t_l", ⟨"p", 0⟩)] (AudioCache._generate_key "t" "l") :=
  (c1_lookup_spec (AudioCache.mk [("t_l", ⟨"p", 0⟩)] 100 3600)
      (fun _ => false) 10 "t" "l").2.1 ⟨"p", 0⟩ (by decide) (by decide) rfl

/-- C2: a lookup immediately after `set` (same text/language, within the
TTL, backing file present) returns exactly the stored artifact. -/
theorem c2_store_then_lookup (c : AudioCache) (fe : String → Bool)
    (t_store t_look : Int) (text language file_path : String)
    (h_ttl : t_look - t_store < c.ttl) (h_fe : fe file_path = true) :
    ((c.set t_store text language file_path).get fe t_look text language).1
      = some file_path := by
  have hfind : assocFind (c.set t_store text language file_path).cache
      (AudioCache._generate_key text language)
      = some ⟨file_path, t_store⟩ := by
    by_cases hc : c.cache.length ≥ c.max_size <;>
      simp [AudioCache.set, hc, assocFind_assocInsert_self]
  have httl : (c.set t_store text language file_path).ttl = c.ttl := by
    by_cases hc : c.cache.length ≥ c.max_size <;>
      simp [AudioCache.set, AudioCache._cleanup_old_entries, hc]
  rw [AudioCache.get_eq, hfind]
  simp [httl, h_ttl, h_fe]

/-- Witness for `c2_store_then_lookup` on a concrete store/lookup pair. -/
theorem c2_store_then_lookup_witness :
    ((AudioCache.init.set 0 "hello" "pt-BR" "f.ogg").get (fun _ => true) 10 "hello" "pt-BR").1
      = some "f.ogg" :=
  c2_store_then_lookup AudioCache.init (fun _ => true) 0 10 "hello" "pt-BR" "f.ogg"
    (by decide) rfl

/-- C3 counterexample: with `max_size = 1` and one unexpired entry, `set`
purges nothing (nothing is TTL-expired) and evicts no victim, so after the
store the cache holds 2 entries — above the configured maximum, contrary to
the claim. -/
theorem c3_size_bound_exceeded :
    ((AudioCache.mk [("a_l", ⟨"p", 0⟩)] 1 3600).set 10 "b" "l" "q").cache.length = 2 ∧
    (AudioCache.mk [("a_l", ⟨"p", 0⟩)] 1 3600).max_size = 1 := by
  decide

/-- C3 (amended): at the size bound, `set` first purges TTL-expired entries
and then inserts — but it evicts no non-expired victim, so the size after a
store is only bounded by (number of unexpired entries) + 1 and can exceed
the configured maximum. -/
theorem c3_set_purges_then_inserts (c : AudioCache) (now : Int)
    (text language file_path : String) (h : c.cache.length ≥ c.max_size) :
    c.set now text language file_path =
      { c._cleanup_old_entries now with
        cache := assocInsert (c._cleanup_old_entries now).cache
          (AudioCache._generate_key text language) ⟨file_path, now⟩ } ∧
    (c.set now text language file_path).cache.length ≤
      (c.cache.filter (fun kv => !decide (now - kv.2.timestamp > c.ttl))).length + 1 := by
  constructor
  · simp [AudioCache.set, h]
  · simp only [AudioCache.set, AudioCache._cleanup_old_entries, h, if_pos, ge_iff_le]
    exact assocInsert_length_le _ _ _

/-- Witness for `c3_set_purges_then_inserts` at a concrete at-capacity cache. -/
theorem c3_set_purges_then_inserts_witness :
    (AudioCache.mk [("a_l", ⟨"p", 0⟩)] 1 3600).set 10 "b" "l" "q" =
      { (AudioCache.mk [("a_l", ⟨"p", 0⟩)] 1 3600)._cleanup_old_entries 10 with
        cache := assocInsert
          ((AudioCache.mk [("a_l", ⟨"p", 0⟩)] 1 3600)._cleanup_old_entries 10).cache
          (AudioCache._generate_key "b" "l") ⟨"q", 10⟩ } ∧
    ((AudioCache.mk [("a_l", ⟨"p", 0⟩)] 1 3600).set 10 "b" "l" "q").cache.length ≤
      ((AudioCache.mk [("a_l", ⟨"p", 0⟩)] 1 3600).cache.filter
        (fun kv => !decide ((10 : Int) - kv.2.timestamp > (3600 : Int)))).length + 1 :=
  c3_set_purges_then_inserts (AudioCache.mk [("a_l", ⟨"p", 0⟩)] 1 3600) 10 "b" "l" "q"
    (by decide)

/-! ## `TTSEngine` (audio_manager.py, lines 81–204; config.py)

The engine owns a private `AudioCache`; `self.client` is modelled by a
`Bool` (initialized or `None`).  The pieces of `generate_audio` that reach
outside the process are explicit function parameters:

* `clean_text_for_tts` — `ContentHelper.clean_text_for_tts` (content.py), a
  pure regex-based text normalizer; every claim under verification is
  independent of its output, so it is passed in abstractly (the theorems
  hold for every normalizer);
* `synthesize_speech` — the remote Google TTS call, returning audio bytes
  or raising (`Except`, errors covering both `GoogleAPIError` and any
  other exception);
* `save_audio_file` — `_save_audio_file`, returning the temp-file path or
  `None` on a failed write;
* `file_exists` / `now` — as for `AudioCache`. -/

/-- Python `str.strip()` (used by `generate_audio`'s `text.strip()` check):
drops leading and trailing whitespace.  Implemented structurally over the
character list so that it evaluates inside the kernel. -/
def pyStrip (s : String) : String :=
  String.mk (((s.data.dropWhile Char.isWhitespace).reverse.dropWhile Char.isWhitespace).reverse)

structure VoiceConfig where
  language_code : String
  name : String
  ssml_gender : String
  speaking_rate : Rat
  pitch : Rat
  volume_gain_db : Rat
deriving Repr, DecidableEq

/-- `Config.TTS_PT_CONFIG` (config.py, lines 50–57). -/
def TTS_PT_CONFIG : VoiceConfig :=
  { language_code := "pt-BR", name := "pt-BR-Wavenet-B", ssml_gender := "MALE"
    speaking_rate := 9 / 10, pitch := 0, volume_gain_db := 0 }

/-- `Config.TTS_EN_CONFIG` (config.py, lines 60–67). -/
def TTS_EN_CONFIG : VoiceConfig :=
  { language_code := "en-US", name := "en-US-Wavenet-D", ssml_gender := "MALE"
    speaking_rate := 85 / 100, pitch := 0, volume_gain_db := 0 }

structure TTSEngine where
  client : Bool
  cache : AudioCache
deriving Repr, DecidableEq

/-- `TTSEngine._get_voice_config`: returns the per-language voice
parameters, raising `ValueError` (modelled by `Except.error`) on an
unsupported language tag. -/
def TTSEngine._get_voice_config (language : String) : Except String VoiceConfig :=
  if language = "pt-BR" then Except.ok TTS_PT_CONFIG
  else if language = "en-US" then Except.ok TTS_EN_CONFIG
  else Except.error ("Idioma nao suportado: " ++ language)

/-- Result of `TTSEngine.generate_audio`: the returned path (or `None`),
the engine state after the call (its cache may have changed), and whether
the remote synthesis call was issued. -/
structure GenResult where
  result : Option String
  engine : TTSEngine
  remote_called : Bool
deriving Repr, DecidableEq

/-- `TTSEngine.generate_audio` (audio_manager.py, lines 107–186).  The
`try/except` that catches `GoogleAPIError` and every other exception is
modelled by matching on the `Except` results: every raising path ends in a
`none` result rather than a propagated exception. -/
def TTSEngine.generate_audio (e : TTSEngine) (file_exists : String → Bool) (now : Int)
    (clean_text_for_tts : String → String)
    (synthesize_speech : String → VoiceConfig → Except String String)
    (save_audio_file : String → String → Option String)
    (text language : String) : GenResult :=
  if !e.client then
    { result := none, engine := e, remote_called := false }
  else if pyStrip text = "" then
    { result := none, engine := e, remote_called := false }
  else
    match e.cache.get file_exists now text language with
    | (some cached_file, cache1) =>
      { result := some cached_file, engine := { e with cache := cache1 }, remote_called := false }
    | (none, cache1) =>
      let e1 : TTSEngine := { e with cache := cache1 }
      let clean_text := clean_text_for_tts text
      match TTSEngine._get_voice_config language with
      | Except.error _ =>
        { result := none, engine := e1, remote_called := false }
      | Except.ok voice_config =>
        match synthesize_speech clean_text voice_config with
        | Except.error _ =>
          { result := none, engine := e1, remote_called := true }
        | Except.ok audio_content =>
          match save_audio_file audio_content language with
          | none =>
            { result := none, engine := e1, remote_called := true }
          | some file_path =>
            { result := some file_path
              engine := { e1 with cache := e1.cache.set now text language file_path }
              remote_called := true }

/-- C4 counterexample: the synthesis engine DOES consult the cache.  Two
engines differing only in cache contents give different results on the same
(text, language) input: with a fresh cached entry `generate_audio` returns
the cached path (and issues no remote call), with an empty cache it returns
`none` — so the result is not independent of cache contents, contrary to
the claim. -/
theorem c4_engine_reads_cache :
    ((TTSEngine.mk true (AudioCache.mk [("hello_pt-BR", ⟨"p", 0⟩)] 100 3600)).generate_audio
        (fun _ => true) 10 (fun s => s) (fun _ _ => Except.error "down") (fun _ _ => none)
        "hello" "pt-BR").result = some "p" ∧
    ((TTSEngine.mk true (AudioCache.mk [] 100 3600)).generate_audio
        (fun _ => true) 10 (fun s => s) (fun _ _ => Except.error "down") (fun _ _ => none)
        "hello" "pt-BR").result = none := by
  decide

/-- C4 (amended): the cache lookup and store are performed by the engine
itself, not by its caller: `generate_audio` first consults its own cache
(a hit returns the cached path with no remote call) and, after a
successful synthesis and save, writes the new artifact into its own cache. -/
theorem c4_engine_owns_cache (e : TTSEngine) (fe : String → Bool) (now : Int)
    (clean : String → String) (synth : String → VoiceConfig → Except String String)
    (save : String → String → Option String) (text language : String) :
    (∀ p c', e.client = true → ¬ pyStrip text = "" →
      e.cache.get fe now text language = (some p, c') →
      e.generate_audio fe now clean synth save text language
        = { result := some p, engine := { e with cache := c' }, remote_called := false }) ∧
    (∀ c' vc audio file_path, e.client = true → ¬ pyStrip text = "" →
      e.cache.get fe now text language = (none, c') →
      TTSEngine._get_voice_config language = Except.ok vc →
      synth (clean text) vc = Except.ok audio →
      save audio language = some file_path →
      e.generate_audio fe now clean synth save text language
        = { result := some file_path
            engine := { e with cache := c'.set now text language file_path }
            remote_called := true }) := by
  constructor
  · intro p c' hc ht hget
    simp [TTSEngine.generate_audio, hc, ht, hget]
  · intro c' vc audio file_path hc ht hget hvc hs hsave
    simp [TTSEngine.generate_audio, hc, ht, hget, hvc, hs, hsave]

/-- Witness for `c4_engine_owns_cache`: a concrete cache hit is returned by
the engine without a remote call. -/
theorem c4_engine_owns_cache_witness :
    (TTSEngine.mk true (AudioCache.mk [("hello_pt-BR", ⟨"p", 0⟩)] 100 3600)).generate_audio
        (fun _ => true) 10 (fun s => s) (fun _ _ => Except.error "down") (fun _ _ => none)
        "hello" "pt-BR"
      = { result := some "p"
          engine := TTSEngine.mk true (AudioCache.mk [("hello_pt-BR", ⟨"p", 0⟩)] 100 3600)
          remote_called := false } :=
  (c4_engine_owns_cache (TTSEngine.mk true (AudioCache.mk [("hello_pt-BR", ⟨"p", 0⟩)] 100 3600))
      (fun _ => true) 10 (fun s => s) (fun _ _ => Except.error "down") (fun _ _ => none)
      "hello" "pt-BR").1 "p" (AudioCache.mk [("hello_pt-BR", ⟨"p", 0⟩)] 100 3600)
    rfl (by decide) (by decide)

/-- C5: `generate_audio` never raises to its caller — an uninitialized
client, empty-after-trimming text, an unsupported language tag, a remote
failure of any kind, and a failed artifact write each produce a `none`
result, and no remote call is issued for the input-validation failures.
(The unsupported-language `ValueError` only occurs after a cache miss, so
the corresponding cases carry the miss as a hypothesis.) -/
theorem c5_generate_audio_never_raises (e : TTSEngine) (fe : String → Bool) (now : Int)
    (clean : String → String) (synth : String → VoiceConfig → Except String String)
    (save : String → String → Option String) (text language : String) :
    (e.client = false →
      e.generate_audio fe now clean synth save text language
        = { result := none, engine := e, remote_called := false }) ∧
    (pyStrip text = "" →
      (e.generate_audio fe now clean synth save text language).result = none ∧
      (e.generate_audio fe now clean synth save text language).remote_called = false) ∧
    ((e.cache.get fe now text language).1 = none →
      language ≠ "pt-BR" → language ≠ "en-US" →
      (e.generate_audio fe now clean synth save text language).result = none ∧
      (e.generate_audio fe now clean synth save text language).remote_called = false) ∧
    (∀ vc msg, (e.cache.get fe now text language).1 = none →
      TTSEngine._get_voice_config language = Except.ok vc →
      synth (clean text) vc = Except.error msg →
      (e.generate_audio fe now clean synth save text language).result = none) ∧
    (∀ vc audio, (e.cache.get fe now text language).1 = none →
      TTSEngine._get_voice_config language = Except.ok vc →
      synth (clean text) vc = Except.ok audio →
      save audio language = none →
      (e.generate_audio fe now clean synth save text language).result = none) := by
  refine ⟨?_, ?_, ?_, ?_, ?_⟩
  · intro hc
    simp [TTSEngine.generate_audio, hc]
  · intro ht
    by_cases hc : e.client <;> simp [TTSEngine.generate_audio, hc, ht]
  · intro hmiss h1 h2
    by_cases hc : e.client
    · by_cases ht : pyStrip text = ""
      · simp [TTSEngine.generate_audio, hc, ht]
      · cases hget : e.cache.get fe now text language with
        | mk r1 c1 =>
          rw [hget] at hmiss
          simp only at hmiss
          subst hmiss
          simp [TTSEngine.generate_audio, hc, ht, hget, TTSEngine._get_voice_config, h1, h2]
    · simp [TTSEngine.generate_audio, hc]
  · intro vc msg hmiss hvc hs
    by_cases hc : e.client
    · by_cases ht : pyStrip text = ""
      · simp [TTSEngine.generate_audio, hc, ht]
      · cases hget : e.cache.get fe now text language with
        | mk r1 c1 =>
          rw [hget] at hmiss
          simp only at hmiss
          subst hmiss
          simp [TTSEngine.generate_audio, hc, ht, hget, hvc, hs]
    · simp [TTSEngine.generate_audio, hc]
  · intro vc audio hmiss hvc hs hsave
    by_cases hc : e.client
    · by_cases ht : pyStrip text = ""
      · simp [TTSEngine.generate_audio, hc, ht]
      · cases hget : e.cache.get fe now text language with
        | mk r1 c1 =>
          rw [hget] at hmiss
          simp only at hmiss
          subst hmiss
          simp [TTSEngine.generate_audio, hc, ht, hget, hvc, hs, hsave]
    · simp [TTSEngine.generate_audio, hc]

/-- Witness for `c5_generate_audio_never_raises`: an unsupported language
tag on an initialized engine with an empty cache yields `none` with no
remote call. -/
theorem c5_generate_audio_never_raises_witness :
    ((TTSEngine.mk true (AudioCache.mk [] 100 3600)).generate_audio
        (fun _ => true) 0 (fun s => s) (fun _ _ => Except.ok "bytes") (fun _ _ => some "f.ogg")
        "hi" "fr-FR").result = none ∧
    ((TTSEngine.mk true (AudioCache.mk [] 100 3600)).generate_audio
        (fun _ => true) 0 (fun s => s) (fun _ _ => Except.ok "bytes") (fun _ _ => some "f.ogg")
        "hi" "fr-FR").remote_called = false :=
  (c5_generate_audio_never_raises (TTSEngine.mk true (AudioCache.mk [] 100 3600))
      (fun _ => true) 0 (fun s => s) (fun _ _ => Except.ok "bytes") (fun _ _ => some "f.ogg")
      "hi" "fr-FR").2.2.1 (by decide) (by decide) (by decide)

/-! ## `DualLanguageAudioManager` (audio_manager.py, lines 206–323)

`self.last_audio_files: Dict[int, Dict[str, str]]` maps a user id to the
last-delivered record `{'pt': …, 'en': …, 'pt_text': …, 'en_text': …}`
(values may be `None`).  The two `generate_audio` calls that
`asyncio.gather` runs concurrently are linearized pt-leg-first; they
target distinct cache keys (different language tags), so the join order
does not change either result.  Python truthiness on optional strings
(`if pt_path:` …) is modelled by `strTruthy`. -/

def strTruthy : Option String → Bool
  | none => false
  | some s => !s.isEmpty

theorem strTruthy_none : strTruthy none = false := rfl

structure AudioRecord where
  pt : Option String
  en : Option String
  pt_text : Option String
  en_text : Option String
deriving Repr, DecidableEq

structure DualLanguageAudioManager where
  tts_engine : TTSEngine
  last_audio_files : List (Int × AudioRecord)
deriving Repr, DecidableEq

/-- `DualLanguageAudioManager.generate_lesson_audio`: generates both legs
and records the results plus their source texts as the user's last
delivered audio (overwriting any previous record).  The `except` around
`asyncio.gather` is unreachable: `generate_audio` never raises (see C5). -/
def DualLanguageAudioManager.generate_lesson_audio (m : DualLanguageAudioManager)
    (file_exists : String → Bool) (now : Int)
    (clean_text_for_tts : String → String)
    (synthesize_speech : String → VoiceConfig → Except String String)
    (save_audio_file : String → String → Option String)
    (user_id : Int) (pt_text en_text : String) :
    (Option String × Option String) × DualLanguageAudioManager :=
  let r1 := m.tts_engine.generate_audio file_exists now clean_text_for_tts
      synthesize_speech save_audio_file pt_text "pt-BR"
  let r2 := r1.engine.generate_audio file_exists now clean_text_for_tts
      synthesize_speech save_audio_file en_text "en-US"
  ((r1.result, r2.result),
    { tts_engine := r2.engine
      last_audio_files := assocInsert m.last_audio_files user_id
        { pt := r1.result, en := r2.result, pt_text := some pt_text, en_text := some en_text } })

/-- `DualLanguageAudioManager.generate_professor_audio`: generates the
Portuguese narration only; records it (with the `en` slot absent) only when
generation succeeded (`if pt_path:`). -/
def DualLanguageAudioManager.generate_professor_audio (m : DualLanguageAudioManager)
    (file_exists : String → Bool) (now : Int)
    (clean_text_for_tts : String → String)
    (synthesize_speech : String → VoiceConfig → Except String String)
    (save_audio_file : String → String → Option String)
    (user_id : Int) (text : String) :
    Option String × DualLanguageAudioManager :=
  let r := m.tts_engine.generate_audio file_exists now clean_text_for_tts
      synthesize_speech save_audio_file text "pt-BR"
  if strTruthy r.result then
    (r.result,
      { tts_engine := r.engine
        last_audio_files := assocInsert m.last_audio_files user_id
          { pt := r.result, en := none, pt_text := some text, en_text := none } })
  else
    (r.result, { m with tts_engine := r.engine })

/-- `DualLanguageAudioManager.repeat_last_audio` (lines 276–308): returns
both slots absent when no record exists; when a recorded artifact is
missing on disk, regenerates from the recorded source texts; otherwise
returns the still-existing recorded paths. -/
def DualLanguageAudioManager.repeat_last_audio (m : DualLanguageAudioManager)
    (file_exists : String → Bool) (now : Int)
    (clean_text_for_tts : String → String)
    (synthesize_speech : String → VoiceConfig → Except String String)
    (save_audio_file : String → String → Option String)
    (user_id : Int) :
    (Option String × Option String) × DualLanguageAudioManager :=
  match assocFind m.last_audio_files user_id with
  | none => ((none, none), m)
  | some last_audio =>
    let pt_path := last_audio.pt
    let en_path := last_audio.en
    let pt_exists := strTruthy pt_path && (match pt_path with
      | some p => file_exists p
      | none => false)
    let en_exists := strTruthy en_path && (match en_path with
      | some p => file_exists p
      | none => false)
    if !pt_exists || (strTruthy en_path && !en_exists) then
      if strTruthy last_audio.pt_text && strTruthy last_audio.en_text then
        m.generate_lesson_audio file_exists now clean_text_for_tts synthesize_speech
          save_audio_file user_id (last_audio.pt_text.getD "") (last_audio.en_text.getD "")
      else if strTruthy last_audio.pt_text then
        let r := m.generate_professor_audio file_exists now clean_text_for_tts
          synthesize_speech save_audio_file user_id (last_audio.pt_text.getD "")
        ((r.1, none), r.2)
      else
        (((if pt_exists then pt_path else none), (if en_exists then en_path else none)), m)
    else
      (((if pt_exists then pt_path else none), (if en_exists then en_path else none)), m)

/-- C6: `repeat_last_audio` returns both slots absent for a user with no
record; when the recorded artifacts have been deleted externally it
regenerates from the recorded source texts (via `generate_lesson_audio`
when both texts were recorded, via `generate_professor_audio` when only the
Portuguese text was) and returns that regenerated pair instead of absence. -/
theorem c6_replay_last (m : DualLanguageAudioManager) (fe : String → Bool) (now : Int)
    (clean : String → String) (synth : String → VoiceConfig → Except String String)
    (save : String → String → Option String) (user_id : Int) :
    (assocFind m.last_audio_files user_id = none →
      m.repeat_last_audio fe now clean synth save user_id = ((none, none), m)) ∧
    (∀ la p, assocFind m.last_audio_files user_id = some la →
      la.pt = some p → fe p = false →
      strTruthy la.pt_text = true → strTruthy la.en_text = true →
      m.repeat_last_audio fe now clean synth save user_id
        = m.generate_lesson_audio fe now clean synth save user_id
            (la.pt_text.getD "") (la.en_text.getD "")) ∧
    (∀ la p, assocFind m.last_audio_files user_id = some la →
      la.pt = some p → fe p = false →
      strTruthy la.pt_text = true → la.en_text = none →
      m.repeat_last_audio fe now clean synth save user_id
        = (((m.generate_professor_audio fe now clean synth save user_id
              (la.pt_text.getD "")).1, none),
            (m.generate_professor_audio fe now clean synth save user_id
              (la.pt_text.getD "")).2)) := by
  refine ⟨?_, ?_, ?_⟩
  · intro h
    simp [DualLanguageAudioManager.repeat_last_audio, h]
  · intro la p hla hpt hfe hpt_t hen_t
    simp [DualLanguageAudioManager.repeat_last_audio, hla, hpt, hfe, hpt_t, hen_t]
  · intro la p hla hpt hfe hpt_t hen_t
    simp [DualLanguageAudioManager.repeat_last_audio, hla, hpt, hfe, hpt_t, hen_t,
      strTruthy_none]

/-- Witness for `c6_replay_last`: a user whose two recorded artifacts are
both gone from disk gets the regenerated pair of the recorded texts. -/
theorem c6_replay_last_witness :
    (DualLanguageAudioManager.mk (TTSEngine.mk true (AudioCache.mk [] 100 3600))
        [(7, ⟨some "a.ogg", some "b.ogg", some "ola", some "hello"⟩)]).repeat_last_audio
        (fun _ => false) 0 (fun s => s) (fun _ _ => Except.error "x") (fun _ _ => none) 7
      = (DualLanguageAudioManager.mk (TTSEngine.mk true (AudioCache.mk [] 100 3600))
        [(7, ⟨some "a.ogg", some "b.ogg", some "ola", some "hello"⟩)]).generate_lesson_audio
        (fun _ => false) 0 (fun s => s) (fun _ _ => Except.error "x") (fun _ _ => none) 7
        "ola" "hello" :=
  (c6_replay_last (DualLanguageAudioManager.mk (TTSEngine.mk true (AudioCache.mk [] 100 3600))
        [(7, ⟨some "a.ogg", some "b.ogg", some "ola", some "hello"⟩)])
      (fun _ => false) 0 (fun s => s) (fun _ _ => Except.error "x") (fun _ _ => none) 7).2.1
    ⟨some "a.ogg", some "b.ogg", some "ola", some "hello"⟩ "a.ogg"
    (by decide) rfl rfl (by decide) (by decide)

/-! ## `UserSession` (user_state.py, lines 15–80)

Timestamps are integer seconds; `datetime.now()` is an explicit `now`
argument.  Field defaults mirror the dataclass defaults; the two
`default_factory=datetime.now` fields take the creation instant. -/

structure UserSession where
  user_id : Int
  name : String := ""
  position : String := ""
  english_level : String := "Intermediário"
  current_step : String := "onboarding"
  current_lesson_id : Int := 1
  last_audio_text : String := ""
  last_interaction : Int
  lessons_completed : List Int := []
  total_interactions : Nat := 0
  session_start : Int
  waiting_for_name : Bool := false
  waiting_for_position : Bool := false
  waiting_for_level : Bool := false
  onboarding_complete : Bool := false
  message_timestamps : List Int := []
deriving Repr, DecidableEq

/-- `UserSession(user_id=user_id)`: a zero-valued session created at `now`. -/
def UserSession.init (user_id : Int) (now : Int) : UserSession :=
  { user_id := user_id, last_interaction := now, session_start := now }

/-- `UserSession.update_last_interaction`: refreshes the timestamp and
increments the interaction counter. -/
def UserSession.update_last_interaction (s : UserSession) (now : Int) : UserSession :=
  { s with last_interaction := now, total_interactions := s.total_interactions + 1 }

/-- `UserSession.add_message_timestamp`: appends the current instant, then
keeps only timestamps strictly newer than `now - timedelta(minutes=1)`. -/
def UserSession.add_message_timestamp (s : UserSession) (now : Int) : UserSession :=
  { s with message_timestamps :=
      (s.message_timestamps ++ [now]).filter (fun ts => decide (ts > now - 60)) }

/-- `UserSession.is_rate_limited(max_messages=10)`: records the current
call via `add_message_timestamp`, then reports whether the pruned window
holds strictly more than `max_messages` entries.  Returns the verdict
together with the updated session (the Python method mutates `self`). -/
def UserSession.is_rate_limited (s : UserSession) (now : Int)
    (max_messages : Nat := 10) : Bool × UserSession :=
  let s1 := s.add_message_timestamp now
  (decide (s1.message_timestamps.length > max_messages), s1)

/-- C7: each `is_rate_limited` call first records the current call and
prunes entries older than 60 seconds, then returns whether the remaining
count exceeds the threshold; with the default threshold 10, the 11th of 11
calls within 5 seconds returns `true`, and a call after 61 further seconds
of inactivity returns `false`. -/
theorem c7_rate_limiting :
    (∀ (s : UserSession) (now : Int),
      (s.is_rate_limited now 10).1
        = decide (((s.message_timestamps ++ [now]).filter
            (fun ts => decide (ts > now - 60))).length > 10) ∧
      (s.is_rate_limited now 10).2.message_timestamps
        = (s.message_timestamps ++ [now]).filter (fun ts => decide (ts > now - 60))) ∧
    ((List.foldl (fun acc t => acc.2.is_rate_limited t 10)
        (false, UserSession.init 1 0) [0, 0, 1, 1, 2, 2, 3, 3, 4, 4, 5]).1 = true) ∧
    (((List.foldl (fun acc t => acc.2.is_rate_limited t 10)
        (false, UserSession.init 1 0) [0, 0, 1, 1, 2, 2, 3, 3, 4, 4, 5]).2.is_rate_limited
        66 10).1 = false) := by
  refine ⟨fun s now => ⟨rfl, rfl⟩, by decide, by decide⟩

/-! ## `UserStateManager` (user_state.py, lines 82–204)

`self.sessions: Dict[int, UserSession]` under `self.lock`, a
NON-reentrant `threading.Lock`.  The lock is modelled by a `locked` flag:
entering `with self.lock:` while the flag is set models the calling thread
blocking forever on a lock it already holds, so the operation produces no
result — `Option` with `none` for "never returns".  Each successful
`with`-block returns with the flag back to `false`. -/

structure UserStateManager where
  sessions : List (Int × UserSession)
  locked : Bool := false
deriving Repr, DecidableEq

/-- The in-memory effect of `get_or_create_session`'s critical section:
create a zero-valued session, or touch the existing one via
`update_last_interaction`. -/
def UserStateManager.get_or_create_body (m : UserStateManager) (now : Int)
    (user_id : Int) : UserSession × UserStateManager :=
  match assocFind m.sessions user_id with
  | none =>
    let s := UserSession.init user_id now
    (s, { m with sessions := assocInsert m.sessions user_id s })
  | some s =>
    let s1 := s.update_last_interaction now
    (s1, { m with sessions := assocInsert m.sessions user_id s1 })

/-- `UserStateManager.get_or_create_session`: `with self.lock:` around
`get_or_create_body`.  `none` models the thread blocking forever because
the (non-reentrant) lock is already held. -/
def UserStateManager.get_or_create_session (m : UserStateManager) (now : Int)
    (user_id : Int) : Option (UserSession × UserStateManager) :=
  if m.locked then none
  else some (m.get_or_create_body now user_id)

/-- The keyword arguments `update_session(user_id, **kwargs)` receives
across the repository; `unknownField` stands for any attribute name the
session does not have (ignored with a logged warning). -/
inductive SessionField where
  | name (v : String)
  | position (v : String)
  | english_level (v : String)
  | current_step (v : String)
  | current_lesson_id (v : Int)
  | last_audio_text (v : String)
  | waiting_for_name (v : Bool)
  | waiting_for_position (v : Bool)
  | waiting_for_level (v : Bool)
  | onboarding_complete (v : Bool)
  | unknownField (k : String)
deriving Repr, DecidableEq

/-- One `setattr(session, key, value)` step, with the `hasattr` guard:
an unknown field name leaves the session unchanged. -/
def setSessionField (s : UserSession) : SessionField → UserSession
  | .name v => { s with name := v }
  | .position v => { s with position := v }
  | .english_level v => { s with english_level := v }
  | .current_step v => { s with current_step := v }
  | .current_lesson_id v => { s with current_lesson_id := v }
  | .last_audio_text v => { s with last_audio_text := v }
  | .waiting_for_name v => { s with waiting_for_name := v }
  | .waiting_for_position v => { s with waiting_for_position := v }
  | .waiting_for_level v => { s with waiting_for_level := v }
  | .onboarding_complete v => { s with onboarding_complete := v }
  | .unknownField _ => s

/-- `UserStateManager.update_session` as written: it takes `self.lock` and
then, inside the critical section, calls `get_or_create_session`, which
tries to take the same non-reentrant lock again. -/
def UserStateManager.update_session (m : UserStateManager) (now : Int)
    (user_id : Int) (kwargs : List SessionField) :
    Option (UserSession × UserStateManager) :=
  if m.locked then none
  else
    match ({ m with locked := true } : UserStateManager).get_or_create_session now user_id with
    | none => none
    | some (session, m1) =>
      let session1 := kwargs.foldl setSessionField session
      let session2 := session1.update_last_interaction now
      some (session2,
        { m1 with locked := false, sessions := assocInsert m1.sessions user_id session2 })

/-- `UserStateManager.get_session`: non-creating read. -/
def UserStateManager.get_session (m : UserStateManager) (user_id : Int) :
    Option UserSession :=
  if m.locked then none
  else assocFind m.sessions user_id

/-- C8 counterexample: on a fresh store, `get_or_create_session` creates
the session but does NOT increment the interaction counter (the
`update_last_interaction` call sits on the `else` branch only) — the
returned record has `total_interactions = 0`, where the claim requires an
increment in the creation case too. -/
theorem c8_creation_does_not_increment :
    (((UserStateManager.mk [] false).get_or_create_session 5 1).map
        (fun r => (r.1.total_interactions, r.1.last_interaction))) = some (0, 5) := by
  decide

/-- C8 (amended): `get_or_create_session` returns the existing record —
refreshing last-interaction and incrementing the interaction counter — or
creates a zero-valued one stamped with the current instant but with the
interaction counter left at 0 (no increment in the creation case). -/
theorem c8_get_or_create_spec (m : UserStateManager) (now user_id : Int)
    (h : m.locked = false) :
    (assocFind m.sessions user_id = none →
      m.get_or_create_session now user_id
        = some (UserSession.init user_id now,
            { m with sessions := assocInsert m.sessions user_id (UserSession.init user_id now) }) ∧
      (UserSession.init user_id now).total_interactions = 0 ∧
      (UserSession.init user_id now).last_interaction = now) ∧
    (∀ s, assocFind m.sessions user_id = some s →
      m.get_or_create_session now user_id
        = some (s.update_last_interaction now,
            { m with sessions := assocInsert m.sessions user_id (s.update_last_interaction now) }) ∧
      (s.update_last_interaction now).last_interaction = now ∧
      (s.update_last_interaction now).total_interactions = s.total_interactions + 1) := by
  constructor
  · intro hfind
    refine ⟨?_, rfl, rfl⟩
    simp [UserStateManager.get_or_create_session, UserStateManager.get_or_create_body, h, hfind]
  · intro s hfind
    refine ⟨?_, rfl, rfl⟩
    simp [UserStateManager.get_or_create_session, UserStateManager.get_or_create_body, h, hfind]

/-- Witness for `c8_get_or_create_spec`: the creation case on an empty
store. -/
theorem c8_get_or_create_spec_witness :
    (UserStateManager.mk [] false).get_or_create_session 5 1
      = some (UserSession.init 1 5,
          { sessions := assocInsert [] 1 (UserSession.init 1 5), locked := false }) ∧
    (UserSession.init 1 5).total_interactions = 0 ∧
    (UserSession.init 1 5).last_interaction = 5 :=
  (c8_get_or_create_spec (UserStateManager.mk [] false) 5 1 rfl).1 rfl

/-- C10: `update_session` never returns a session at all.  It acquires the
store's non-reentrant `threading.Lock` and then calls
`get_or_create_session`, which blocks forever trying to acquire the same
lock from the same thread — a guaranteed self-deadlock, contrary to the
claim that the operation creates the session, applies the fields and
returns it.  (`none` models "never returns"; the conjunct evaluates the
model at the concrete failing input `update_session(1, name="Ana")`.) -/
theorem c10_update_session_deadlocks :
    (∀ (m : UserStateManager) (now user_id : Int) (kwargs : List SessionField),
      m.update_session now user_id kwargs = none) ∧
    (UserStateManager.mk [] false).update_session 0 1 [SessionField.name "Ana"] = none := by
  constructor
  · intro m now user_id kwargs
    by_cases h : m.locked <;>
      simp [UserStateManager.update_session, UserStateManager.get_or_create_session, h]
  · decide

/-! ## `OnboardingFlow` (user_state.py, lines 206–250)

`start_onboarding` calls
`update_session(user_id, current_step="onboarding", waiting_for_name=True,
onboarding_complete=False)` and returns a welcome text.  `update_session`
self-deadlocks on the store's non-reentrant lock (its nested
`get_or_create_session` re-acquires the lock the critical section already
holds), so as written `start_onboarding` never completes: `none` models
the call blocking forever, with no session field ever written. -/

def OnboardingFlow.start_onboarding_kwargs : List SessionField :=
  [SessionField.current_step "onboarding", SessionField.waiting_for_name true,
    SessionField.onboarding_complete false]

def OnboardingFlow.welcome_text : String :=
  "\n🔥 Eaí, futuro craque! Sou o Professor Bola Gringa! ⚽\n\nVou te ensinar inglês usando o que você mais ama: FUTEBOL! \nAqui você vai aprender vocabulário, gírias e tudo sobre o beautiful game em inglês!\n\nVamos começar se conhecendo melhor? \n\n**Qual é o seu nome?** 😎\n"

/-- `OnboardingFlow.start_onboarding` as written: routed through
`update_session` (which never returns, see C10). -/
def OnboardingFlow.start_onboarding (m : UserStateManager) (now : Int) (user_id : Int) :
    Option (String × UserStateManager) :=
  match m.update_session now user_id OnboardingFlow.start_onboarding_kwargs with
  | none => none
  | some (_, m1) => some (OnboardingFlow.welcome_text, m1)

/-- C9 counterexample: re-entering onboarding for a user whose profile was
already collected does not reset the state machine to the awaiting-name
step and does not clear (or change) any profile field, because the call
never completes: `start_onboarding` routes through `update_session`,
whose nested acquisition of the store's held non-reentrant lock blocks
forever (`none` models the call never returning). -/
theorem c9_reenter_onboarding_never_resets :
    OnboardingFlow.start_onboarding
      (UserStateManager.mk
        [(1, { UserSession.init 1 0 with
                 name := "Ana", position := "Zagueiro", english_level := "Avançado"
                 onboarding_complete := true, current_step := "lesson" })] false)
      100 1 = none := by
  decide

/-- C9 (amended): re-entering onboarding never completes — for every store
state, instant and user, `start_onboarding` produces no result, because
its `update_session` call re-acquires the store's held non-reentrant lock
and blocks forever; consequently the state machine is never reset to the
awaiting-name step and the previously collected profile fields are
neither cleared nor changed. -/
theorem c9_start_onboarding_never_completes (m : UserStateManager)
    (now user_id : Int) :
    OnboardingFlow.start_onboarding m now user_id = none := by
  by_cases h : m.locked <;>
    simp [OnboardingFlow.start_onboarding, UserStateManager.update_session,
      UserStateManager.get_or_create_session, h]
